import Mathlib

/-!
Shallow embedding of `src/mcp_client_agent_roc.py`, the MCP-to-Bedrock
return-of-control bridge.

Modelling conventions:
* Python dicts that the code iterates or builds are modelled as association
  lists in insertion order (CPython dicts preserve insertion order, and an
  overwritten key keeps its original position).
* `str(uuid.uuid1())` is nondeterministic; the successive values it produces
  are modelled as an explicit supply of identifiers (`ids : Nat → String`),
  one per call, the way the interpreter would hand them out.
* The two external capabilities are modelled as function parameters:
  `runtime : InvokeCall → List Event` stands for
  `bedrock_agent_runtime_client.invoke_agent` (the returned `completion`
  event stream), and
  `call_tool : String → List (String × String) → ToolServerResult` stands for
  `self.session.call_tool`.
* A Python `KeyError` / `IndexError` / raised `Exception` is modelled with
  `Option`/`Except` failure values.
* In the source, the `trace` branch of both event loops executes
  `print.info(...)`; the builtin `print` has no attribute `info`, so this
  raises `AttributeError`, which the surrounding `try` re-raises as an
  "unexpected event" exception.  The embedding therefore maps a `trace`
  event to `ChatError.unexpectedEvent`.
-/

namespace MCP

/-- One property entry of an MCP tool's `inputSchema` (what the Python code
reads as `param_info`): an optional `title`, an optional `description`
(written `descr` here) and a `type` string.  The code accesses
`param_info['title']` and `param_info['type']`; a missing key raises
`KeyError`, hence the `Option` on `title`. -/
structure ParamInfo where
  title : Option String
  descr : Option String
  type : String
deriving DecidableEq

/-- One entry of `mcp_tools` / `format_a`: tool `name`, `description`, the
`parameters.properties` mapping (insertion-ordered association list) and the
`parameters.required` name list. -/
structure ToolSpec where
  name : String
  description : String
  properties : List (String × ParamInfo)
  required : List String
deriving DecidableEq

/-- One translated per-parameter entry of a Bedrock agent function
definition, as built by `_make_bedrock_agent_functions_definitions`. -/
structure FuncParam where
  description : String
  required : Bool
  type : String
deriving DecidableEq

/-- One entry of `format_b`: a Bedrock agent function definition. -/
structure FunctionDefinition where
  name : String
  description : String
  parameters : List (String × FuncParam)
deriving DecidableEq

/-- The translation of the properties of one tool, mirroring the inner
`for param_name, param_info in properties.items()` loop of
`_make_bedrock_agent_functions_definitions`:
`description` is `param_info['title']` (a missing `title` key raises
`KeyError`, modelled as `none`; the separate `descr` field is never read),
`required` is `param_name in required_params`, `type` is
`param_info['type']`. -/
def translateParams (required_params : List String) :
    List (String × ParamInfo) → Option (List (String × FuncParam))
  | [] => some []
  | (param_name, info) :: rest =>
    match info.title with
    | none => none
    | some t =>
      match translateParams required_params rest with
      | none => none
      | some ps =>
        some ((param_name, ⟨t, decide (param_name ∈ required_params), info.type⟩) :: ps)

/-- `MCPClient._make_bedrock_agent_functions_definitions`: the outer
`for function in format_a` loop, appending one new function per input tool
in order. -/
def make_bedrock_agent_functions_definitions : List ToolSpec → Option (List FunctionDefinition)
  | [] => some []
  | t :: rest =>
    match translateParams t.required t.properties with
    | none => none
    | some ps =>
      match make_bedrock_agent_functions_definitions rest with
      | none => none
      | some fs => some (⟨t.name, t.description, ps⟩ :: fs)

/-- Modelled from the spec: the SchemaTranslator's per-parameter description
rule, which the source is claimed to implement — "`description` taken from
the parameter's human-readable title (falls back to the parameter's own
description field if no title is present; ...; if neither is present,
translation fails with a SchemaError rather than emitting an empty
description)".  Used only to compare the spec's rule with the code's
(`translateParams`). -/
def specParamDescription (info : ParamInfo) : Option String :=
  match info.title with
  | some t => some t
  | none => info.descr

/-- `functionInvocationInput` of a return-control event: the fields the code
reads (`actionGroup`, `function`, `parameters`).  `parameters` is the ordered
name/value pair list. -/
structure FunctionInvocationInput where
  actionGroup : String
  function : String
  parameters : List (String × String)
deriving DecidableEq

/-- The `returnControl` payload: `invocationId` and the
`invocationInputs` list (the code indexes `[0]`). -/
structure ReturnControlPayload where
  invocationId : String
  invocationInputs : List FunctionInvocationInput
deriving DecidableEq

/-- One event of the `completion` event stream.  The code dispatches with
`'returnControl' in event` / `'chunk' in event` / `'trace' in event` /
`else`; the constructors mirror those four disjoint shapes (`chunk` carries
the already-decoded UTF-8 text of `event['chunk']['bytes']`). -/
inductive Event where
  | chunk (text : String)
  | trace (payload : String)
  | returnControl (rc : ReturnControlPayload)
  | other
deriving DecidableEq

/-- Errors a turn can raise: the `raise Exception("unexpected event.", ...)`
paths (including the `trace` branch, whose `print.info` raises
`AttributeError` and is re-raised as an unexpected-event exception), and the
`IndexError` of `invocationInputs[0]` / `content[0]`. -/
inductive ChatError where
  | unexpectedEvent
  | indexError
deriving DecidableEq

/-- The `functionResult` entry of `returnControlInvocationResults`:
`actionGroup`, `function`, and the `responseBody.TEXT.body` text. -/
structure FunctionResult where
  actionGroup : String
  function : String
  body : String
deriving DecidableEq

/-- The `sessionState` payload of the second `invoke_agent` call. -/
structure SessionState where
  invocationId : String
  returnControlInvocationResults : List FunctionResult
deriving DecidableEq

/-- One call to `bedrock_agent_runtime_client.invoke_agent`, recording the
arguments the bridge passes (`agentId`/`agentAliasId` are module constants
and omitted).  The first call passes `inputText`, `endSession=False` and no
`sessionState`; the resume call passes no `inputText`, no `endSession`, and
a `sessionState`. -/
structure InvokeCall where
  sessionId : String
  inputText : Option String
  enableTrace : Bool
  endSession : Option Bool
  sessionState : Option SessionState
deriving DecidableEq

/-- One call to the MCP server's `call_tool`: tool name and the converted
argument mapping (as an insertion-ordered association list). -/
structure ToolCall where
  name : String
  args : List (String × String)
deriving DecidableEq

/-- The MCP server's tool result: the `content` list, of which the code
reads `content[0].text`.  Modelled as the list of text payloads. -/
structure ToolServerResult where
  content : List String
deriving DecidableEq

/-- Insert one key/value pair into a Python-dict association list: an
existing key keeps its position and gets the new value, a new key is
appended. -/
def insertPair (d : List (String × String)) (k v : String) : List (String × String) :=
  if d.any (fun e => e.1 = k) then
    d.map (fun e => if e.1 = k then (e.1, v) else e)
  else
    d ++ [(k, v)]

/-- Fold a pair list into a Python dict, left to right. -/
def dictInsertAll (d : List (String × String)) : List (String × String) → List (String × String)
  | [] => d
  | (k, v) :: rest => dictInsertAll (insertPair d k v) rest

/-- The dict comprehension
`{item['name']: item['value'] for item in function_args}`: keys inserted in
order, a repeated key silently overwritten (last value wins). -/
def dictOfPairs (l : List (String × String)) : List (String × String) :=
  dictInsertAll [] l

/-- `MCPClient.handle_tool_call`: converts the ordered argument list with the
dict comprehension and calls the MCP server.  No validation of any kind is
performed (no required-parameter check, no registered-name check, no
duplicate detection).  Returns the issued `ToolCall` (name and converted
args, recorded for observability) together with the server's result. -/
def handle_tool_call (call_tool : String → List (String × String) → ToolServerResult)
    (function_name : String) (function_args : List (String × String)) :
    ToolCall × ToolServerResult :=
  (⟨function_name, dictOfPairs function_args⟩,
    call_tool function_name (dictOfPairs function_args))

/-- The first `for event in event_stream` loop of `MCPClient.chat`, with the
two accumulators `function_call` (initially `None`) and `agent_answer`
(initially `None`).  A `returnControl` event is recorded and iteration
CONTINUES (there is no `break`); a `chunk` overwrites the answer; a `trace`
event raises (`print.info` is an `AttributeError`, re-raised as an
unexpected-event exception); any other event raises. -/
def processFirstStream :
    Option ReturnControlPayload → Option String → List Event →
    Except ChatError (Option ReturnControlPayload × Option String)
  | function_call, agent_answer, [] => .ok (function_call, agent_answer)
  | _, agent_answer, .returnControl rc :: rest =>
    processFirstStream (some rc) agent_answer rest
  | function_call, _, .chunk text :: rest =>
    processFirstStream function_call (some text) rest
  | _, _, .trace _ :: _ => .error .unexpectedEvent
  | _, _, .other :: _ => .error .unexpectedEvent

/-- The second `for event in event_stream` loop of `MCPClient.chat` (after a
return-of-control resume): only `chunk` and `trace` are dispatched; a
`returnControl` event in this phase falls into the `else` branch and raises;
`trace` raises as in the first loop. -/
def processSecondStream :
    Option String → List Event → Except ChatError (Option String)
  | agent_answer, [] => .ok agent_answer
  | _, .chunk text :: rest => processSecondStream (some text) rest
  | _, .trace _ :: _ => .error .unexpectedEvent
  | _, .returnControl _ :: _ => .error .unexpectedEvent
  | _, .other :: _ => .error .unexpectedEvent

/-- `MCPClient.chat`.  `session_id` is the value `str(uuid.uuid1())`
produced at the top of the call; `runtime` and `call_tool` model the two
external capabilities.  Returns the final `agent_answer` together with the
list of `invoke_agent` calls issued and the list of MCP tool calls issued.

Control flow, mirrored from the source: issue the first invoke; fold the
first stream; if a `returnControl` was recorded, read
`invocationInputs[0]` (IndexError if empty), call the tool via
`handle_tool_call`, read `content[0]` of the result (IndexError if empty),
issue the resume invoke under the SAME `session_id` with the echoed
`invocationId`/`actionGroup`/`function`, reset `agent_answer` to `None`
and fold the resumed stream. -/
def chat (session_id query : String) (runtime : InvokeCall → List Event)
    (call_tool : String → List (String × String) → ToolServerResult) :
    Except ChatError (Option String × List InvokeCall × List ToolCall) :=
  match processFirstStream none none
      (runtime ⟨session_id, some query, false, some false, none⟩) with
  | .error e => .error e
  | .ok (none, agent_answer) =>
    .ok (agent_answer, [⟨session_id, some query, false, some false, none⟩], [])
  | .ok (some rc, _) =>
    match rc.invocationInputs with
    | [] => .error .indexError
    | inp :: _ =>
      match handle_tool_call call_tool inp.function inp.parameters with
      | (tc, tool_response) =>
        match tool_response.content with
        | [] => .error .indexError
        | tool_result :: _ =>
          match processSecondStream none
              (runtime ⟨session_id, none, false, none,
                some ⟨rc.invocationId,
                  [⟨inp.actionGroup, inp.function, tool_result⟩]⟩⟩) with
          | .error e => .error e
          | .ok ans =>
            .ok (ans,
              [⟨session_id, some query, false, some false, none⟩,
               ⟨session_id, none, false, none,
                 some ⟨rc.invocationId,
                   [⟨inp.actionGroup, inp.function, tool_result⟩]⟩⟩],
              [tc])

/-- Python's `str.lower()`, character-wise (the queries compared here are
ASCII, where `Char.toLower` agrees with Python). -/
def pyLower (s : String) : String := ⟨s.data.map Char.toLower⟩

/-- Python's `str.strip()`: drop leading and trailing whitespace. -/
def pyStrip (s : String) : String :=
  ⟨((s.data.dropWhile Char.isWhitespace).reverse.dropWhile Char.isWhitespace).reverse⟩

/-- `MCPClient.chat_loop`: reads raw queries one at a time (modelled as the
`queries` list), strips each (`input(...).strip()`), exits when the
lowercased query is the `quit` sentinel, otherwise runs `chat` — whose body
generates a FRESH `str(uuid.uuid1())` on every call, modelled by the supply
`ids` indexed by the running call counter `i` — and collects each turn's
outcome (an exception is caught, reported, and the loop continues, so
outcomes are recorded as `Except` values). -/
def chat_loop (ids : Nat → String) (runtime : InvokeCall → List Event)
    (call_tool : String → List (String × String) → ToolServerResult) :
    Nat → List String →
    List (Except ChatError (Option String × List InvokeCall × List ToolCall))
  | _, [] => []
  | i, q :: qs =>
    if (pyLower (pyStrip q) = "quit") then []
    else chat (ids i) (pyStrip q) runtime call_tool ::
      chat_loop ids runtime call_tool (i + 1) qs

/-- The last `returnControl` payload of a stream, if any (what the first
loop's `function_call` variable holds at stream end). -/
def lastReturnControl : List Event → Option ReturnControlPayload
  | [] => none
  | .returnControl rc :: rest => some ((lastReturnControl rest).getD rc)
  | _ :: rest => lastReturnControl rest

/-- The last `chunk` text of a stream, if any (what `agent_answer` holds at
stream end when started from `None`). -/
def lastChunk : List Event → Option String
  | [] => none
  | .chunk text :: rest => some ((lastChunk rest).getD text)
  | _ :: rest => lastChunk rest

/-- `keepLast newer older` is `newer` unless it is `none`, in which case
`older`: the value an overwrite-accumulator holds after folding a suffix
whose contribution is `newer` over a prefix value `older`. -/
def keepLast {α : Type} (newer older : Option α) : Option α :=
  match newer with
  | some x => some x
  | none => older

theorem keepLast_none {α : Type} (x : Option α) : keepLast x none = x := by
  cases x <;> rfl

/-- The first event loop computes the overwrite-fold of its two
accumulators: on success, `function_call` holds the last `returnControl`
of the stream (or the initial value) and `agent_answer` the last chunk
(or the initial value). -/
theorem processFirstStream_acc :
    ∀ (s : List Event) (fc0 : Option ReturnControlPayload) (a0 : Option String)
      (fc : Option ReturnControlPayload) (a : Option String),
      processFirstStream fc0 a0 s = .ok (fc, a) →
      fc = keepLast (lastReturnControl s) fc0 ∧ a = keepLast (lastChunk s) a0 := by
  intro s
  induction s with
  | nil =>
    intro fc0 a0 fc a h
    simp only [processFirstStream, Except.ok.injEq, Prod.mk.injEq] at h
    simp [lastReturnControl, lastChunk, keepLast, h.1, h.2]
  | cons e rest ih =>
    intro fc0 a0 fc a h
    cases e with
    | chunk t =>
      have hrec := ih fc0 (some t) fc a h
      refine ⟨by simpa [lastReturnControl] using hrec.1, ?_⟩
      cases hc : lastChunk rest with
      | none => simpa [lastChunk, keepLast, hc] using hrec.2
      | some x => simpa [lastChunk, keepLast, hc] using hrec.2
    | returnControl rc =>
      have hrec := ih (some rc) a0 fc a h
      refine ⟨?_, by simpa [lastChunk] using hrec.2⟩
      cases hc : lastReturnControl rest with
      | none => simpa [lastReturnControl, keepLast, hc] using hrec.1
      | some x => simpa [lastReturnControl, keepLast, hc] using hrec.1
    | trace p => simp [processFirstStream] at h
    | other => simp [processFirstStream] at h

/-- Specialisation to the initial accumulators (`None`, `None`) used by
`chat`. -/
theorem processFirstStream_char (s : List Event) (fc : Option ReturnControlPayload)
    (a : Option String) (h : processFirstStream none none s = .ok (fc, a)) :
    fc = lastReturnControl s ∧ a = lastChunk s := by
  have := processFirstStream_acc s none none fc a h
  rwa [keepLast_none, keepLast_none] at this

/-- The second event loop likewise keeps the last chunk. -/
theorem processSecondStream_acc :
    ∀ (s : List Event) (a0 a : Option String),
      processSecondStream a0 s = .ok a → a = keepLast (lastChunk s) a0 := by
  intro s
  induction s with
  | nil =>
    intro a0 a h
    simp only [processSecondStream, Except.ok.injEq] at h
    simp [lastChunk, keepLast, h]
  | cons e rest ih =>
    intro a0 a h
    cases e with
    | chunk t =>
      have hrec := ih (some t) a h
      cases hc : lastChunk rest with
      | none => simpa [lastChunk, keepLast, hc] using hrec
      | some x => simpa [lastChunk, keepLast, hc] using hrec
    | returnControl rc => simp [processSecondStream] at h
    | trace p => simp [processSecondStream] at h
    | other => simp [processSecondStream] at h

/-- Specialisation to the initial accumulator (`None`). -/
theorem processSecondStream_char (s : List Event) (a : Option String)
    (h : processSecondStream none s = .ok a) : a = lastChunk s := by
  have := processSecondStream_acc s none a h
  rwa [keepLast_none] at this

/-- Pointwise characterisation of the per-tool parameter translation: on
success, output entries pair up with input entries in order; each keeps the
parameter name, takes its description from the source `title`, copies the
`type`, and sets `required` to membership in the required list. -/
theorem translateParams_char (req : List String) :
    ∀ (ps : List (String × ParamInfo)) (out : List (String × FuncParam)),
      translateParams req ps = some out →
      List.Forall₂ (fun (p : String × ParamInfo) (q : String × FuncParam) =>
        q.1 = p.1 ∧ p.2.title = some q.2.description ∧ q.2.type = p.2.type ∧
        q.2.required = decide (p.1 ∈ req)) ps out := by
  intro ps
  induction ps with
  | nil =>
    intro out h
    simp only [translateParams, Option.some.injEq] at h
    rw [← h]
    exact List.Forall₂.nil
  | cons p rest ih =>
    obtain ⟨n, info⟩ := p
    intro out h
    cases htitle : info.title with
    | none => simp [translateParams, htitle] at h
    | some t =>
      cases hrec : translateParams req rest with
      | none => simp [translateParams, htitle, hrec] at h
      | some ps2 =>
        simp only [translateParams, htitle, hrec, Option.some.injEq] at h
        rw [← h]
        exact List.Forall₂.cons ⟨rfl, by simpa using htitle, rfl, rfl⟩ (ih ps2 hrec)

/-- Pointwise characterisation of `_make_bedrock_agent_functions_definitions`:
on success, one output definition per input tool, in order, with the same
name and description and the translated parameters. -/
theorem make_defs_char :
    ∀ (ts : List ToolSpec) (out : List FunctionDefinition),
      make_bedrock_agent_functions_definitions ts = some out →
      List.Forall₂ (fun (t : ToolSpec) (f : FunctionDefinition) =>
        f.name = t.name ∧ f.description = t.description ∧
        translateParams t.required t.properties = some f.parameters) ts out := by
  intro ts
  induction ts with
  | nil =>
    intro out h
    simp only [make_bedrock_agent_functions_definitions, Option.some.injEq] at h
    rw [← h]
    exact List.Forall₂.nil
  | cons t rest ih =>
    intro out h
    cases hps : translateParams t.required t.properties with
    | none => simp [make_bedrock_agent_functions_definitions, hps] at h
    | some ps =>
      cases hrec : make_bedrock_agent_functions_definitions rest with
      | none => simp [make_bedrock_agent_functions_definitions, hps, hrec] at h
      | some fs =>
        simp only [make_bedrock_agent_functions_definitions, hps, hrec,
          Option.some.injEq] at h
        rw [← h]
        exact List.Forall₂.cons ⟨rfl, rfl, hps⟩ (ih fs hrec)

/-- Concrete fixtures used by counterexamples and witnesses (the spec's §8
`get_weather` scenario and variations). -/
def weatherParam : ParamInfo :=
  ⟨some ("two-letter US state code"), none, "string"⟩

def weatherTool : ToolSpec :=
  ⟨"get_weather", "Get weather for a state", [("state", weatherParam)], ["state"]⟩

def weatherDef : FunctionDefinition :=
  ⟨"get_weather", "Get weather for a state",
    [("state", ⟨"two-letter US state code", true, "string"⟩)]⟩

def noTitleParam : ParamInfo :=
  ⟨none, some ("two-letter US state code"), "string"⟩

def noTitleTool : ToolSpec :=
  ⟨"get_alerts", "Get weather alerts", [("state", noTitleParam)], ["state"]⟩

def rcA : ReturnControlPayload :=
  ⟨"inv-1", [⟨"mcp_tools", "get_weather", [("state", "CA")]⟩]⟩

def rcB : ReturnControlPayload :=
  ⟨"inv-2", [⟨"mcp_tools", "get_alerts", []⟩]⟩

/-- A two-phase agent runtime: the initial invoke (no `sessionState`) yields
one `returnControl` event carrying `rc`; the resume invoke (with a
`sessionState`) yields one final chunk. -/
def rocRuntime (rc : ReturnControlPayload) : InvokeCall → List Event :=
  fun c =>
    match c.sessionState with
    | none => [.returnControl rc]
    | some _ => [.chunk ("done")]

/-- Like `rocRuntime`, but the first stream also carries a chunk (which the
return-control path must discard) and the resumed stream has no events. -/
def rocNoChunkRuntime (rc : ReturnControlPayload) : InvokeCall → List Event :=
  fun c =>
    match c.sessionState with
    | none => [.returnControl rc, .chunk ("ignored")]
    | some _ => []

/-- A tool server that answers every call with one text segment. -/
def constToolServer (t : String) : String → List (String × String) → ToolServerResult :=
  fun _ _ => ⟨[t]⟩

/-- C3 counterexample: the first event loop has no `break` on
`returnControl`.  In a stream holding a `returnControl`, then a chunk, then
a second `returnControl`, both later events are read and processed: the
recorded request ends up being the SECOND `returnControl` (not the first)
and the chunk after the first `returnControl` overwrites the answer, so
consumption did not terminate at the first `returnControl`. -/
theorem c3_counterexample :
    processFirstStream none none
        [Event.returnControl rcA, Event.chunk ("late"), Event.returnControl rcB] =
      .ok (some rcB, some ("late")) ∧ rcB ≠ rcA := by
  exact ⟨rfl, by decide⟩

/-- C3 (amended): on seeing `returnControl` the first loop records the event
and KEEPS CONSUMING the stream to its end: whenever the loop succeeds, the
recorded request is the LAST `returnControl` of the whole stream and the
accumulated answer is the last chunk of the whole stream. -/
theorem c3_stream_consumed_to_end (s : List Event)
    (fc : Option ReturnControlPayload) (a : Option String)
    (h : processFirstStream none none s = .ok (fc, a)) :
    fc = lastReturnControl s ∧ a = lastChunk s :=
  processFirstStream_char s fc a h

/-- Witness for `c3_stream_consumed_to_end` at a concrete stream. -/
theorem c3_stream_consumed_to_end_witness :
    some rcB =
      lastReturnControl
        [Event.returnControl rcA, Event.chunk ("late"), Event.returnControl rcB] ∧
    some ("late") =
      lastChunk
        [Event.returnControl rcA, Event.chunk ("late"), Event.returnControl rcB] :=
  c3_stream_consumed_to_end
    [Event.returnControl rcA, Event.chunk ("late"), Event.returnControl rcB]
    (some rcB) (some ("late")) rfl

/-- C4 counterexample: duplicate argument names raise nothing: the dict
comprehension of `handle_tool_call` silently keeps the last value, and the
tool server is called with that mapping. -/
theorem c4_counterexample :
    handle_tool_call (constToolServer ("72F and clear")) ("get_weather")
        [("state", "CA"), ("state", "NY")] =
      (⟨"get_weather", [("state", "NY")]⟩, ⟨["72F and clear"]⟩) := rfl

/-- C4 (amended): for a duplicated argument name the invoker does NOT fail:
it silently builds a mapping holding the LAST value for that name and calls
the tool server with it. -/
theorem c4_duplicates_silently_overwrite
    (ct : String → List (String × String) → ToolServerResult)
    (fn n v₁ v₂ : String) :
    handle_tool_call ct fn [(n, v₁), (n, v₂)] =
      (⟨fn, [(n, v₂)]⟩, ct fn [(n, v₂)]) := by
  simp [handle_tool_call, dictOfPairs, dictInsertAll, insertPair]

/-- C5 counterexample: a parameter carrying its own description but no
title.  The claim says translation uses the description field as fallback;
the code reads only `param_info['title']`, so translation fails
(`KeyError`), while the spec's rule (`specParamDescription`) produces the
description. -/
theorem c5_counterexample :
    make_bedrock_agent_functions_definitions [noTitleTool] = none ∧
    specParamDescription noTitleParam = some ("two-letter US state code") :=
  ⟨rfl, rfl⟩

/-- C5 (amended): the emitted description is ALWAYS the parameter's title —
whenever translation succeeds, every output description equals the source
title — and a parameter without a title makes the whole translation fail
(a `KeyError`, not a `SchemaError`), even when the parameter has its own
description field; that field is never consulted. -/
theorem c5_description_is_title_only :
    (∀ (req : List String) (ps : List (String × ParamInfo))
      (out : List (String × FuncParam)),
      translateParams req ps = some out →
      List.Forall₂ (fun (p : String × ParamInfo) (q : String × FuncParam) =>
        p.2.title = some q.2.description) ps out) ∧
    (∀ (req : List String) (pre post : List (String × ParamInfo))
      (n : String) (info : ParamInfo),
      info.title = none →
      translateParams req (pre ++ (n, info) :: post) = none) := by
  constructor
  · intro req ps out h
    exact (translateParams_char req ps out h).imp (fun _ _ hq => hq.2.1)
  · intro req pre post n info hinfo
    induction pre with
    | nil => simp [translateParams, hinfo]
    | cons hd tl ih =>
      obtain ⟨hn, hi⟩ := hd
      cases hti : hi.title with
      | none => simp [translateParams, hti]
      | some t => simp [translateParams, hti, ih]

/-- Witness for `c5_description_is_title_only` at concrete inputs. -/
theorem c5_description_is_title_only_witness :
    List.Forall₂ (fun (p : String × ParamInfo) (q : String × FuncParam) =>
        p.2.title = some q.2.description)
      [("state", weatherParam)]
      [("state", ⟨"two-letter US state code", true, "string"⟩)] ∧
    translateParams ["state"] ([] ++ ("state", noTitleParam) :: []) = none :=
  ⟨c5_description_is_title_only.1 ["state"] [("state", weatherParam)]
      [("state", ⟨"two-letter US state code", true, "string"⟩)] rfl,
    c5_description_is_title_only.2 ["state"] [] [] ("state") noTitleParam rfl⟩

/-- C8: the source's `trace` branch executes `print.info(...)`; builtin
`print` has no attribute `info`, so processing any `trace` event raises and
(re-wrapped by the `except` clause) FAILS the turn, destroying the answer —
contradicting the claim that trace never affects control flow.  Shown on a
concrete turn whose stream is a chunk followed by a trace event, and on the
resumed-stream loop as well. -/
theorem c8_trace_fails_turn :
    chat ("sid-8") ("hi")
        (fun _ => [Event.chunk ("part-one"), Event.trace ("diag")])
        (constToolServer ("r")) = .error ChatError.unexpectedEvent ∧
    processSecondStream none [Event.trace ("diag")] =
      .error ChatError.unexpectedEvent :=
  ⟨rfl, rfl⟩

/-- C9: translation emits exactly one FunctionDefinition per ToolSpec, in
the same relative order (pairwise, with matching names), and each
translated parameter's `required` flag is true iff its name is in the
originating tool's required list. -/
theorem c9_translation_shape (ts : List ToolSpec) (out : List FunctionDefinition)
    (h : make_bedrock_agent_functions_definitions ts = some out) :
    out.length = ts.length ∧
    List.Forall₂ (fun (t : ToolSpec) (f : FunctionDefinition) =>
      f.name = t.name ∧
      List.Forall₂ (fun (p : String × ParamInfo) (q : String × FuncParam) =>
        q.1 = p.1 ∧ (q.2.required = true ↔ p.1 ∈ t.required))
        t.properties f.parameters) ts out := by
  have hc := make_defs_char ts out h
  refine ⟨hc.length_eq.symm, ?_⟩
  refine hc.imp ?_
  intro t f hf
  refine ⟨hf.1, ?_⟩
  refine (translateParams_char t.required t.properties f.parameters hf.2.2).imp ?_
  intro p q hq
  exact ⟨hq.1, by rw [hq.2.2.2]; simp⟩

/-- Witness for `c9_translation_shape`: the spec's §8 scenario A. -/
theorem c9_translation_shape_witness :
    [weatherDef].length = [weatherTool].length ∧
    List.Forall₂ (fun (t : ToolSpec) (f : FunctionDefinition) =>
      f.name = t.name ∧
      List.Forall₂ (fun (p : String × ParamInfo) (q : String × FuncParam) =>
        q.1 = p.1 ∧ (q.2.required = true ↔ p.1 ∈ t.required))
        t.properties f.parameters) [weatherTool] [weatherDef] :=
  c9_translation_shape [weatherTool] [weatherDef] rfl

/-- Shape of every successful `chat` run: either no return-control was
recorded and exactly one invoke call (carrying the query) was issued with no
tool call, or a return-control was recorded and exactly two invoke calls —
the initial one and the resume call echoing the recorded event's
`invocationId`/`actionGroup`/`function` under the same session id — plus
exactly one tool call were issued. -/
theorem chat_ok_shape (sid q : String) (runtime : InvokeCall → List Event)
    (ct : String → List (String × String) → ToolServerResult)
    (ans : Option String) (calls : List InvokeCall) (tcs : List ToolCall)
    (h : chat sid q runtime ct = .ok (ans, calls, tcs)) :
    (calls = [⟨sid, some q, false, some false, none⟩] ∧ tcs = [] ∧
      processFirstStream none none
        (runtime ⟨sid, some q, false, some false, none⟩) = .ok (none, ans)) ∨
    (∃ rc a inp tail tool_result ctail,
      processFirstStream none none
        (runtime ⟨sid, some q, false, some false, none⟩) = .ok (some rc, a) ∧
      rc.invocationInputs = inp :: tail ∧
      (ct inp.function (dictOfPairs inp.parameters)).content = tool_result :: ctail ∧
      calls =
        [⟨sid, some q, false, some false, none⟩,
         ⟨sid, none, false, none,
           some ⟨rc.invocationId, [⟨inp.actionGroup, inp.function, tool_result⟩]⟩⟩] ∧
      tcs = [⟨inp.function, dictOfPairs inp.parameters⟩] ∧
      processSecondStream none
        (runtime ⟨sid, none, false, none,
          some ⟨rc.invocationId, [⟨inp.actionGroup, inp.function, tool_result⟩]⟩⟩) =
        .ok ans) := by
  cases h1 : processFirstStream none none
      (runtime ⟨sid, some q, false, some false, none⟩) with
  | error e => simp [chat, h1] at h
  | ok pr =>
    obtain ⟨fc, a⟩ := pr
    cases fc with
    | none =>
      left
      simp only [chat, h1, Except.ok.injEq, Prod.mk.injEq] at h
      obtain ⟨ha, hcalls, htcs⟩ := h
      refine ⟨hcalls.symm, htcs.symm, ?_⟩
      rw [← ha]
    | some rc =>
      cases h2 : rc.invocationInputs with
      | nil => simp [chat, h1, h2] at h
      | cons inp tail =>
        cases h3 : (ct inp.function (dictOfPairs inp.parameters)).content with
        | nil => simp [chat, h1, h2, h3, handle_tool_call] at h
        | cons tool_result ctail =>
          cases h4 : processSecondStream none
              (runtime ⟨sid, none, false, none,
                some ⟨rc.invocationId,
                  [⟨inp.actionGroup, inp.function, tool_result⟩]⟩⟩) with
          | error e => simp [chat, h1, h2, h3, h4, handle_tool_call] at h
          | ok a2 =>
            right
            simp only [chat, h1, h2, h3, h4, handle_tool_call, Except.ok.injEq,
              Prod.mk.injEq] at h
            obtain ⟨ha, hcalls, htcs⟩ := h
            refine ⟨rc, a, inp, tail, tool_result, ctail, rfl, h2, h3,
              hcalls.symm, htcs.symm, ?_⟩
            rw [← ha]
            exact h4

/-- C1: in every turn whose run issued a resume call (two invoke calls),
both invoke calls carry the same `session_id`, and the resume call's
`sessionState` echoes the `invocationId` of the recorded `returnControl`
event of the first stream together with the `actionGroup` and `function`
of its first `functionInvocationInput`, unchanged. -/
theorem c1_resume_same_session_and_echo (sid q : String)
    (runtime : InvokeCall → List Event)
    (ct : String → List (String × String) → ToolServerResult)
    (ans : Option String) (c₁ c₂ : InvokeCall) (tcs : List ToolCall)
    (h : chat sid q runtime ct = .ok (ans, [c₁, c₂], tcs)) :
    c₁.sessionId = sid ∧ c₂.sessionId = sid ∧
    ∃ rc inp tail body,
      lastReturnControl (runtime c₁) = some rc ∧
      rc.invocationInputs = inp :: tail ∧
      c₂.sessionState =
        some ⟨rc.invocationId, [⟨inp.actionGroup, inp.function, body⟩]⟩ := by
  rcases chat_ok_shape sid q runtime ct ans [c₁, c₂] tcs h with
    ⟨hcalls, _, _⟩ | ⟨rc, a, inp, tail, tool_result, ctail, h1, h2, h3, hcalls, htcs, h4⟩
  · exact absurd hcalls (by simp)
  · obtain ⟨hc1, hc2⟩ : c₁ = _ ∧ c₂ = _ := by simpa using hcalls
    subst hc1
    subst hc2
    refine ⟨rfl, rfl, rc, inp, tail, tool_result, ?_, h2, rfl⟩
    exact ((processFirstStream_char _ _ _ h1).1).symm

/-- Concrete first invoke call of the C1 witness scenario. -/
def c1FirstCall : InvokeCall := ⟨"sC", some ("weather?"), false, some false, none⟩

/-- Concrete resume invoke call of the C1 witness scenario. -/
def c1SecondCall : InvokeCall :=
  ⟨"sC", none, false, none,
    some ⟨"inv-1", [⟨"mcp_tools", "get_weather", "72F and clear"⟩]⟩⟩

/-- Witness for `c1_resume_same_session_and_echo`: the spec's §8 scenario C. -/
theorem c1_resume_same_session_and_echo_witness :
    c1FirstCall.sessionId = "sC" ∧ c1SecondCall.sessionId = "sC" ∧
    ∃ rc inp tail body,
      lastReturnControl (rocRuntime rcA c1FirstCall) = some rc ∧
      rc.invocationInputs = inp :: tail ∧
      c1SecondCall.sessionState =
        some ⟨rc.invocationId, [⟨inp.actionGroup, inp.function, body⟩]⟩ :=
  c1_resume_same_session_and_echo ("sC") ("weather?") (rocRuntime rcA)
    (constToolServer ("72F and clear")) (some ("done")) c1FirstCall c1SecondCall
    [⟨"get_weather", [("state", "CA")]⟩] rfl

/-- The successive values of `str(uuid.uuid1())` in the C2 counterexample
run (uuid1 yields a fresh value on every call). -/
def uuidSupply : Nat → String := fun i => if i = 0 then ("uuid-0") else ("uuid-1")

/-- C2 counterexample: `session_id` is generated INSIDE `chat`, so a loop
run with two queries issues its two invoke calls under two DIFFERENT
session ids (the first and second uuid drawn), not one stable id. -/
theorem c2_counterexample :
    chat_loop uuidSupply (fun _ => [Event.chunk ("ok")]) (constToolServer ("r")) 0
        ["hello", "again"] =
      [.ok (some ("ok"), [⟨"uuid-0", some ("hello"), false, some false, none⟩], []),
       .ok (some ("ok"), [⟨"uuid-1", some ("again"), false, some false, none⟩], [])] ∧
    ("uuid-0" : String) ≠ "uuid-1" :=
  ⟨rfl, by decide⟩

/-- C2 (amended): the SessionContext is per TURN, not per loop run: every
invoke call issued by one `chat` call carries that call's own freshly drawn
`session_id` (so the id is stable within a turn, across initial and resume
calls), and the loop hands each successive non-quit query the NEXT value of
the uuid supply. -/
theorem c2_session_id_per_turn :
    (∀ (sid q : String) (runtime : InvokeCall → List Event)
      (ct : String → List (String × String) → ToolServerResult)
      (ans : Option String) (calls : List InvokeCall) (tcs : List ToolCall),
      chat sid q runtime ct = .ok (ans, calls, tcs) →
      ∀ c ∈ calls, c.sessionId = sid) ∧
    (∀ (ids : Nat → String) (runtime : InvokeCall → List Event)
      (ct : String → List (String × String) → ToolServerResult)
      (i : Nat) (q : String) (qs : List String),
      ¬(pyLower (pyStrip q) = "quit") →
      chat_loop ids runtime ct i (q :: qs) =
        chat (ids i) (pyStrip q) runtime ct ::
          chat_loop ids runtime ct (i + 1) qs) := by
  constructor
  · intro sid q runtime ct ans calls tcs h c hc
    rcases chat_ok_shape sid q runtime ct ans calls tcs h with
      ⟨hcalls, _, _⟩ | ⟨rc, a, inp, tail, tool_result, ctail, _, _, _, hcalls, _, _⟩
    · subst hcalls
      obtain hc1 : c = _ := by simpa using hc
      subst hc1
      rfl
    · subst hcalls
      rcases (by simpa using hc : c = _ ∨ c = _) with hc1 | hc1
      · subst hc1
        rfl
      · subst hc1
        rfl
  · intro ids runtime ct i q qs hq
    simp [chat_loop, hq]

/-- Witness for `c2_session_id_per_turn` at concrete inputs. -/
theorem c2_session_id_per_turn_witness :
    (⟨"uuid-0", some ("hello"), false, some false, none⟩ : InvokeCall).sessionId =
      "uuid-0" ∧
    chat_loop uuidSupply (fun _ => [Event.chunk ("ok")]) (constToolServer ("r")) 0
        ["hello"] =
      chat ("uuid-0") (pyStrip ("hello")) (fun _ => [Event.chunk ("ok")])
          (constToolServer ("r")) ::
        chat_loop uuidSupply (fun _ => [Event.chunk ("ok")]) (constToolServer ("r"))
          1 [] :=
  ⟨c2_session_id_per_turn.1 ("uuid-0") ("hello") (fun _ => [Event.chunk ("ok")])
      (constToolServer ("r")) (some ("ok"))
      [⟨"uuid-0", some ("hello"), false, some false, none⟩] [] rfl
      ⟨"uuid-0", some ("hello"), false, some false, none⟩ (by simp),
    c2_session_id_per_turn.2 uuidSupply (fun _ => [Event.chunk ("ok")])
      (constToolServer ("r")) 0 ("hello") [] (by decide)⟩

/-- C6 counterexample: `get_weather` is registered with parameter `state`
marked required, yet `handle_tool_call` invoked with an EMPTY argument list
does not fail — it has no failure outcome at all — and the tool server IS
called (its response comes back). -/
theorem c6_counterexample :
    make_bedrock_agent_functions_definitions [weatherTool] = some [weatherDef] ∧
    ("state", (⟨"two-letter US state code", true, "string"⟩ : FuncParam)) ∈
      weatherDef.parameters ∧
    handle_tool_call (constToolServer ("72F and clear")) ("get_weather") [] =
      (⟨"get_weather", []⟩, ⟨["72F and clear"]⟩) :=
  ⟨rfl, by simp [weatherDef], rfl⟩

/-- C6 (amended): the bridge performs NO required-parameter validation:
even when a registered FunctionDefinition matching the called function
marks a parameter required and the return-control arguments omit it
entirely, the turn proceeds, the tool server is called with the converted
mapping, and the resumption is issued. -/
theorem c6_missing_required_param_not_checked (sid q invId ag fn : String)
    (args : List (String × String)) (defs : List FunctionDefinition)
    (fd : FunctionDefinition) (pname : String) (fp : FuncParam)
    (ct : String → List (String × String) → ToolServerResult)
    (body : String) (brest : List String)
    (hfd : fd ∈ defs) (hname : fd.name = fn)
    (hp : (pname, fp) ∈ fd.parameters) (hreq : fp.required = true)
    (habsent : ∀ v, (pname, v) ∉ args)
    (hct : (ct fn (dictOfPairs args)).content = body :: brest) :
    chat sid q (rocRuntime ⟨invId, [⟨ag, fn, args⟩]⟩) ct =
      .ok (some ("done"),
        [⟨sid, some q, false, some false, none⟩,
         ⟨sid, none, false, none, some ⟨invId, [⟨ag, fn, body⟩]⟩⟩],
        [⟨fn, dictOfPairs args⟩]) := by
  simp [chat, rocRuntime, processFirstStream, processSecondStream,
    handle_tool_call, hct]

/-- Witness for `c6_missing_required_param_not_checked`: `get_weather`
(required parameter `state`) invoked with no arguments. -/
theorem c6_missing_required_param_not_checked_witness :
    chat ("s6") ("what") (rocRuntime ⟨"i6", [⟨"mcp_tools", "get_weather", []⟩]⟩)
        (constToolServer ("72F")) =
      .ok (some ("done"),
        [⟨"s6", some ("what"), false, some false, none⟩,
         ⟨"s6", none, false, none,
           some ⟨"i6", [⟨"mcp_tools", "get_weather", "72F"⟩]⟩⟩],
        [⟨"get_weather", dictOfPairs []⟩]) :=
  c6_missing_required_param_not_checked ("s6") ("what") ("i6") ("mcp_tools") ("get_weather")
    [] [weatherDef] weatherDef ("state") ⟨"two-letter US state code", true, "string"⟩
    (constToolServer ("72F")) ("72F") []
    (by simp) rfl (by simp [weatherDef]) rfl (by simp) rfl

/-- C7 counterexample: no registered tool is named `no_such_tool`, yet
`handle_tool_call` invoked with that name does not fail — it has no failure
outcome at all — and the tool server IS contacted with the unknown name. -/
theorem c7_counterexample :
    make_bedrock_agent_functions_definitions [weatherTool] = some [weatherDef] ∧
    weatherDef.name ≠ "no_such_tool" ∧
    handle_tool_call (constToolServer ("r")) ("no_such_tool") [("x", "1")] =
      (⟨"no_such_tool", [("x", "1")]⟩, ⟨["r"]⟩) :=
  ⟨rfl, by decide, rfl⟩

/-- C7 (amended): the bridge performs NO registered-name validation: for a
function name matching none of the registered FunctionDefinitions, the
turn proceeds and the tool server is contacted with that name verbatim. -/
theorem c7_unregistered_name_not_checked (sid q invId ag fn : String)
    (args : List (String × String)) (defs : List FunctionDefinition)
    (ct : String → List (String × String) → ToolServerResult)
    (body : String) (brest : List String)
    (hreg : ∀ fd ∈ defs, fd.name ≠ fn)
    (hct : (ct fn (dictOfPairs args)).content = body :: brest) :
    chat sid q (rocRuntime ⟨invId, [⟨ag, fn, args⟩]⟩) ct =
      .ok (some ("done"),
        [⟨sid, some q, false, some false, none⟩,
         ⟨sid, none, false, none, some ⟨invId, [⟨ag, fn, body⟩]⟩⟩],
        [⟨fn, dictOfPairs args⟩]) := by
  simp [chat, rocRuntime, processFirstStream, processSecondStream,
    handle_tool_call, hct]

/-- Witness for `c7_unregistered_name_not_checked`: calling `no_such_tool`
when only `get_weather` is registered. -/
theorem c7_unregistered_name_not_checked_witness :
    chat ("s7") ("what") (rocRuntime ⟨"i7", [⟨"mcp_tools", "no_such_tool", []⟩]⟩)
        (constToolServer ("oops")) =
      .ok (some ("done"),
        [⟨"s7", some ("what"), false, some false, none⟩,
         ⟨"s7", none, false, none,
           some ⟨"i7", [⟨"mcp_tools", "no_such_tool", "oops"⟩]⟩⟩],
        [⟨"no_such_tool", dictOfPairs []⟩]) :=
  c7_unregistered_name_not_checked ("s7") ("what") ("i7") ("mcp_tools") ("no_such_tool")
    [] [weatherDef] (constToolServer ("oops")) ("oops") [] (by decide) rfl

/-- The last invoke call of a run — the one whose stream is the turn's
final stream (arbitrary default for the impossible empty case). -/
def lastCall : List InvokeCall → InvokeCall
  | [] => ⟨"", none, false, none, none⟩
  | [c] => c
  | _ :: rest => lastCall rest

/-- C10 counterexample: a first stream with no chunk event but one
unrecognized event: `chat` raises (an error), it does not return `None` —
so the claim that a chunk-free final stream yields `None` fails as
universally stated. -/
theorem c10_counterexample :
    chat ("sid-ten") ("q") (fun _ => [Event.other]) (constToolServer ("r")) =
      .error ChatError.unexpectedEvent ∧
    lastChunk [Event.other] = none :=
  ⟨rfl, rfl⟩

/-- C10 (amended): whenever `chat` SUCCEEDS, its answer is exactly the last
chunk of the FINAL stream — the first stream when no return-control
occurred, the resumed stream after one (first-stream chunks are discarded) —
and in particular a final stream with no chunk yields `none`; but a stream
holding a trace or unrecognized event fails the turn instead of returning
`None`. -/
theorem c10_answer_from_final_stream_only (sid q : String)
    (runtime : InvokeCall → List Event)
    (ct : String → List (String × String) → ToolServerResult)
    (ans : Option String) (calls : List InvokeCall) (tcs : List ToolCall)
    (h : chat sid q runtime ct = .ok (ans, calls, tcs)) :
    calls ≠ [] ∧ ans = lastChunk (runtime (lastCall calls)) := by
  rcases chat_ok_shape sid q runtime ct ans calls tcs h with
    ⟨hcalls, htcs, h1⟩ | ⟨rc, a, inp, tail, tool_result, ctail, h1, h2, h3, hcalls, htcs, h4⟩
  · subst hcalls
    refine ⟨by simp, ?_⟩
    have := (processFirstStream_char _ _ _ h1).2
    simpa [lastCall] using this
  · subst hcalls
    refine ⟨by simp, ?_⟩
    have := processSecondStream_char _ _ h4
    simpa [lastCall] using this

/-- Concrete calls of the C10 witness scenario (return-of-control with a
first-stream chunk and an EMPTY resumed stream). -/
def c10FirstCall : InvokeCall := ⟨"sW", some ("q"), false, some false, none⟩

def c10SecondCall : InvokeCall :=
  ⟨"sW", none, false, none,
    some ⟨"inv-1", [⟨"mcp_tools", "get_weather", "72F"⟩]⟩⟩

/-- Witness for `c10_answer_from_final_stream_only`: the resumed stream has
no chunk, so the answer is `none` — even though the FIRST stream carried a
chunk (`"ignored"`), which is discarded. -/
theorem c10_answer_from_final_stream_only_witness :
    ([c10FirstCall, c10SecondCall] : List InvokeCall) ≠ [] ∧
    (none : Option String) =
      lastChunk (rocNoChunkRuntime rcA (lastCall [c10FirstCall, c10SecondCall])) :=
  c10_answer_from_final_stream_only ("sW") ("q") (rocNoChunkRuntime rcA)
    (constToolServer ("72F")) none [c10FirstCall, c10SecondCall]
    [⟨"get_weather", [("state", "CA")]⟩] rfl

end MCP
